import Mathlib

/-!
# Verification of `fires.py`

A shallow embedding of the fire-data pipeline in `src/fires.py` and proofs of
the behavioural claims about it.  The script downloads a CSV of satellite fire
detections, filters it to today's date, inspects it via a temporary-file
round-trip through an external loader, prints summary statistics, and writes a
single CSV snapshot sorted by fire radiative power.

Modelling conventions:
* a pandas `DataFrame` is a column-name list together with a list of rows,
  each row a list of cell values aligned with the columns;
* cell values are strings or rationals (CSV numerics are modelled as `ℚ`);
* the network is a parameter `fetch : String → Except String DataFrame`
  mapping a URL to a parsed response or a request/parse failure;
* the external loader `earthkit.data.from_source` is a parameter
  `String → Except String EkData` from a file path;
* the filesystem is explicit: the output directory is a list of
  (file name, written table) pairs, the temp directory a list of path names;
* `print` output of the analyzer is modelled as a list of structured `Line`
  values, and a Python exception as the `Except.error` case.
-/

/-- A CSV cell value: a string or a numeric (CSV numbers modelled as `ℚ`). -/
inductive Value where
  | str (s : String)
  | num (q : ℚ)
deriving DecidableEq

/-- A pandas DataFrame: ordered column names and ordered rows of cells. -/
structure DataFrame where
  cols : List String
  rows : List (List Value)
deriving DecidableEq

/-- `df.empty`: true when the frame has no rows (or no columns at all). -/
def DataFrame.isEmpty (df : DataFrame) : Bool :=
  df.rows.isEmpty || df.cols.isEmpty

/-- Cell of `row` in the column named `c` (`none` when the column is absent
or the row is short). -/
def getCell (cols : List String) (row : List Value) (c : String) : Option Value :=
  match cols.findIdx? (fun s => s == c) with
  | some i => row.get? i
  | none => none

/-- `series.get(c, default)` on a row viewed as a pandas Series. -/
def rowGet (cols : List String) (row : List Value) (c : String) (dflt : Value) : Value :=
  (getCell cols row c).getD dflt

/-! ## Dates: `datetime.strftime("%Y-%m-%d")` -/

/-- Zero-pad a numeral to two digits, as `%m` / `%d` do. -/
def pad2 (n : ℕ) : String :=
  if n < 10 then "0" ++ toString n else toString n

/-- Zero-pad a numeral to four digits, as `%Y` does. -/
def pad4 (n : ℕ) : String :=
  if n < 10 then "000" ++ toString n
  else if n < 100 then "00" ++ toString n
  else if n < 1000 then "0" ++ toString n
  else toString n

/-- `today.strftime("%Y-%m-%d")`: the YYYY-MM-DD rendering of a date. -/
def fmtDate (y m d : ℕ) : String :=
  pad4 y ++ "-" ++ pad2 m ++ "-" ++ pad2 d

/-! ## Fetcher: `get_latest_fire_data` -/

/-- The NASA FIRMS endpoint prefix (`base_url` in the source). -/
def BASE_URL : String := "https://firms.modaps.eosdis.nasa.gov/data/active_fire"

/-- The `sources` dict, in Python 3.7+ insertion order. -/
def SOURCES : List (String × String) :=
  [("modis", "modis-c6.1"), ("viirs", "viirs-snpp"), ("viirs_noaa20", "viirs-noaa20")]

/-- The f-string `f"..base_url../..source_path../txt/MODIS_C6_1_Global_24h.csv"`:
the source path is interpolated, the trailing file name is a constant. -/
def buildUrl (sourcePath : String) : String :=
  BASE_URL ++ "/" ++ sourcePath ++ "/txt/MODIS_C6_1_Global_24h.csv"

/-- Boolean test used by the mask `df['acq_date'] == today_str`. -/
def rowMatchesDate (cols : List String) (todayStr : String) (row : List Value) : Bool :=
  decide (getCell cols row "acq_date" = some (Value.str todayStr))

/-- `df[df['acq_date'] == today_str]`: row selection by boolean mask, keeping
the masked rows in their original order. -/
def filterToday (todayStr : String) (df : DataFrame) : DataFrame :=
  { cols := df.cols, rows := df.rows.filter (rowMatchesDate df.cols todayStr) }

/-- The `for source_name, source_path in sources.items()` loop body: each
iteration fetches one URL, and continues on request failure, an empty table,
a missing date column, or an empty filtered table. -/
def trySources (todayStr : String) (fetch : String → Except String DataFrame) :
    List (String × String) → Except String (DataFrame × String)
  | [] => .error "Failed to download fire data from all sources"
  | (sourceName, sourcePath) :: rest =>
    match fetch (buildUrl sourcePath) with
    | .error _ => trySources todayStr fetch rest
    | .ok df =>
      if df.isEmpty then trySources todayStr fetch rest
      else if "acq_date" ∈ df.cols then
        let dfToday := filterToday todayStr df
        if dfToday.rows.isEmpty then trySources todayStr fetch rest
        else .ok (dfToday, sourceName)
      else trySources todayStr fetch rest

/-- `get_latest_fire_data`: try the configured sources in order; raise
(the `Except.error` case) when every source is exhausted. -/
def get_latest_fire_data (todayStr : String)
    (fetch : String → Except String DataFrame) : Except String (DataFrame × String) :=
  trySources todayStr fetch SOURCES

/-! ## Loader/Inspector: `process_fire_data_with_earthkit` -/

/-- An opaque handle returned by the external tabular loader
(`earthkit.data.from_source`); its contents are never inspected. -/
structure EkData where
  tag : String
deriving DecidableEq

/-- `process_fire_data_with_earthkit`: create a named temporary file, hand
its path to the external loader inside a `try`, and in the `finally` block
`os.unlink` the file; the loader's exception, if any, propagates after the
cleanup.  The temp directory is the explicit list `tmpFs` of existing paths;
`tmpPath` is the fresh name `NamedTemporaryFile` picked. -/
def process_fire_data_with_earthkit (loader : String → Except String EkData)
    (df : DataFrame) (tmpPath : String) (tmpFs : List String) :
    Except String (EkData × DataFrame) × List String :=
  let fsAfterCreate := tmpPath :: tmpFs
  let result : Except String (EkData × DataFrame) :=
    match loader tmpPath with
    | .ok data => .ok (data, df)
    | .error e => .error e
  (result, fsAfterCreate.erase tmpPath)

/-! ## Sorting: `df.sort_values(col, ascending=False)` and `df.nlargest`

Both calls delegate to a library sort; one executable insertion sort models
them.  For `nlargest` the model is exact: pandas documents the default
`keep='first'` as prioritising earlier rows among equal keys, which is
precisely the insertion sort's tie order.  For `sort_values` the source uses
the default `kind='quicksort'`, whose tie order pandas documents as NOT
guaranteed; an executable model must fix some admissible tie order, and
every theorem below about `sort_values` output uses only consequences that
are insensitive to where rows with equal keys land (permutation, identity of
the no-`frp` branch, file-set effects). -/

/-- `keyGE k a b` holds when `a` may precede `b` in a descending sort by the
key `k`. -/
def keyGE {α : Type} (k : α → ℚ) (a b : α) : Prop := k b ≤ k a

instance {α : Type} (k : α → ℚ) : DecidableRel (keyGE k) :=
  fun a b => inferInstanceAs (Decidable (k b ≤ k a))

instance {α : Type} (k : α → ℚ) : IsTotal α (keyGE k) :=
  ⟨fun a b => le_total (k b) (k a)⟩

instance {α : Type} (k : α → ℚ) : IsTrans α (keyGE k) :=
  ⟨fun _ _ _ h1 h2 => le_trans h2 h1⟩

/-- Stable descending sort of rows by a rational key. -/
def sortRowsDescBy {α : Type} (k : α → ℚ) (l : List α) : List α :=
  List.insertionSort (keyGE k) l

/-- Numeric reading of a named column's cell, for use as a sort key.  In the
source the sorted columns (`frp`, `acq_time`) are parsed by `read_csv` as
numeric, so the non-numeric fallback value 0 is never exercised there. -/
def numKey (cols : List String) (c : String) (row : List Value) : ℚ :=
  match getCell cols row c with
  | some (Value.num q) => q
  | _ => 0

/-- `df.nlargest(n, c)` with the default `keep='first'`: the `n` rows with
the largest values in column `c`, in descending order, earlier rows first
among ties. -/
def DataFrame.nlargest (df : DataFrame) (n : ℕ) (c : String) : List (List Value) :=
  (sortRowsDescBy (numKey df.cols c) df.rows).take n

/-! ## Writer: `save_fire_data` -/

/-- The output directory: file names mapped to the table written there. -/
abbrev OutDir := List (String × DataFrame)

/-- Does a file name match the glob `fire_snapshot*.csv`?  (A directory entry
contains no slash, so `*` is an arbitrary infix.) -/
def snapshotGlobMatch (name : String) : Bool :=
  "fire_snapshot".data.isPrefixOf name.data &&
    ".csv".data.reverse.isPrefixOf (name.data.drop 13).reverse

/-- The sort step of the writer: sort descending by `frp` when that column
exists, otherwise keep the frame unchanged.  The real call's tie order is
unspecified (default sort kind); the insertion sort here realises one
admissible order, and no theorem about this definition depends on it. -/
def savedDf (df : DataFrame) : DataFrame :=
  if "frp" ∈ df.cols then
    { cols := df.cols, rows := sortRowsDescBy (numKey df.cols "frp") df.rows }
  else df

/-- `save_fire_data`: ensure the directory exists, delete every file matching
`fire_snapshot*.csv`, sort by `frp` when present, and write the single file
`fire_snapshot.csv`.  Returns the new directory contents and the path
reported in the `"csv"` entry of the result dict. -/
def save_fire_data (df : DataFrame) (dir : OutDir) : OutDir × String :=
  let cleared : List (String × DataFrame) :=
    dir.filter (fun e => !snapshotGlobMatch e.1)
  (cleared ++ [("fire_snapshot.csv", savedDf df)], "fire_data/fire_snapshot.csv")

/-! ## Analyzer: `analyze_fire_data`

Console output is modelled as a list of structured `Line` values carrying the
data each `print` renders; a Python exception raised while building a line
aborts the whole call as an `Except.error`. -/

/-- One printed line of the analysis (numeric payloads kept symbolic;
`none` stands for pandas `NaN` on an empty column). -/
inductive Line where
  | header
  | total (n : ℕ)
  | avgConfidence (q : Option ℚ)
  | highConfidence (n : ℕ)
  | latRange (lo hi : Option ℚ)
  | lonRange (lo hi : Option ℚ)
  | dailyHeader
  | dailyCount (date : String) (n : ℕ)
  | recentHeader
  | recentFire (date time : Value) (lat lon : ℚ)
deriving DecidableEq

/-- Is this line one of the per-row lines of the "most recent" block? -/
def Line.isRecentFire : Line → Bool
  | .recentFire _ _ _ _ => true
  | _ => false

/-- The numeric entries of a column (pandas reductions skip missing cells). -/
def colNums (df : DataFrame) (c : String) : List ℚ :=
  df.rows.filterMap (fun r =>
    match getCell df.cols r c with
    | some (Value.num q) => some q
    | _ => none)

/-- `series.mean()`: `none` models the `NaN` returned on an empty column. -/
def seriesMean (l : List ℚ) : Option ℚ :=
  if l.isEmpty then none else some (l.sum / l.length)

/-- `series.min()` (`none` models `NaN` on an empty column). -/
def seriesMin (l : List ℚ) : Option ℚ :=
  l.foldr (fun q acc => match acc with
    | none => some q
    | some m => some (min q m)) none

/-- `series.max()` (`none` models `NaN` on an empty column). -/
def seriesMax (l : List ℚ) : Option ℚ :=
  l.foldr (fun q acc => match acc with
    | none => some q
    | some m => some (max q m)) none

/-- `len(df[df['confidence'] > 80])`. -/
def highConfCount (df : DataFrame) : ℕ :=
  (df.rows.filter (fun r =>
    match getCell df.cols r "confidence" with
    | some (Value.num q) => decide (80 < q)
    | _ => false)).length

/-- The string entries of a column (the `acq_date` values). -/
def colStrs (df : DataFrame) (c : String) : List String :=
  df.rows.filterMap (fun r =>
    match getCell df.cols r c with
    | some (Value.str s) => some s
    | _ => none)

/-- `df['acq_date'].value_counts().sort_index()`: one (date, count) pair per
distinct date, in ascending date order. -/
def dailyCounts (df : DataFrame) : List (String × ℕ) :=
  (List.insertionSort (fun a b : String => a ≤ b) (colStrs df "acq_date").dedup).map
    (fun d => (d, ((colStrs df "acq_date").filter (fun s => s == d)).length))

/-- Applying the f-string format spec `:.2f` to a value: numbers format,
any string raises `ValueError` (this is what happens to the `'N/A'`
default when a coordinate column is absent). -/
def fmt2f : Value → Except String ℚ
  | Value.num q => .ok q
  | Value.str _ => .error "Unknown format code 'f' for object of type 'str'"

/-- One line of the "most recent" loop: `fire.get` defaults missing fields to
the string `'N/A'`; date and time print plainly, latitude and longitude go
through the `:.2f` format spec and hence raise on the string default. -/
def recentLine (cols : List String) (r : List Value) : Except String Line := do
  let d := rowGet cols r "acq_date" (Value.str "N/A")
  let t := rowGet cols r "acq_time" (Value.str "N/A")
  let la ← fmt2f (rowGet cols r "latitude" (Value.str "N/A"))
  let lo ← fmt2f (rowGet cols r "longitude" (Value.str "N/A"))
  pure (Line.recentFire d t la lo)

/-- Effectful map over a list in the exception monad, as a Python `for`
loop: the first raised exception aborts the whole loop. -/
def mapExcept {a b : Type} (f : a → Except String b) : List a → Except String (List b)
  | [] => .ok []
  | x :: l =>
    match f x with
    | .error e => .error e
    | .ok y =>
      match mapExcept f l with
      | .error e => .error e
      | .ok ys => .ok (y :: ys)

/-- The `if 'acq_time' in df.columns:` block.  The inner conditional
expression repeats the same test, so its `df.head(5)` branch is dead code:
without a time column the block prints nothing at all. -/
def recentBlock (df : DataFrame) : Except String (List Line) :=
  if "acq_time" ∈ df.cols then do
    let rows := if "acq_time" ∈ df.cols then df.nlargest 5 "acq_time" else df.rows.take 5
    let ls ← mapExcept (recentLine df.cols) rows
    pure (Line.recentHeader :: ls)
  else pure []

/-- The two opening lines: the banner and the total detection count. -/
def basicLines (df : DataFrame) : List Line :=
  [Line.header, Line.total df.rows.length]

/-- The `if 'confidence' in df.columns:` block. -/
def confLines (df : DataFrame) : List Line :=
  if "confidence" ∈ df.cols then
    [Line.avgConfidence (seriesMean (colNums df "confidence")),
     Line.highConfidence (highConfCount df)]
  else []

/-- The `if 'latitude' in df.columns and 'longitude' in df.columns:` block. -/
def coordLines (df : DataFrame) : List Line :=
  if "latitude" ∈ df.cols ∧ "longitude" ∈ df.cols then
    [Line.latRange (seriesMin (colNums df "latitude")) (seriesMax (colNums df "latitude")),
     Line.lonRange (seriesMin (colNums df "longitude")) (seriesMax (colNums df "longitude"))]
  else []

/-- The `if 'acq_date' in df.columns:` block. -/
def dailyLines (df : DataFrame) : List Line :=
  if "acq_date" ∈ df.cols then
    Line.dailyHeader :: (dailyCounts df).map (fun p => Line.dailyCount p.1 p.2)
  else []

/-- `analyze_fire_data`: print the summary blocks in order; each block is
guarded by the presence of its columns.  The result is the list of printed
lines, or the first exception raised (only the "most recent" block can
raise, via the `:.2f` format spec). -/
def analyze_fire_data (df : DataFrame) : Except String (List Line) :=
  match recentBlock df with
  | .error e => .error e
  | .ok recent =>
    .ok (basicLines df ++ confLines df ++ coordLines df ++ dailyLines df ++ recent)

/-! ## Top level: `main` -/

/-- The source function `main` (the name itself is reserved by Lean for
entry points): run the four stages inside one `try`; any exception from any
stage is caught at this level, logged, and turned into the null triple.  The
output directory and the temp directory are threaded explicitly; on the
error path neither directory gains a file (the loader's temp file, when
created, is already removed by its `finally`). -/
def fires_main (todayStr : String) (fetch : String → Except String DataFrame)
    (loader : String → Except String EkData) (tmpPath : String)
    (dir : OutDir) (tmpFs : List String) :
    (Option DataFrame × Option EkData × Option String) × OutDir × List String :=
  match get_latest_fire_data todayStr fetch with
  | .error _ => ((none, none, none), dir, tmpFs)
  | .ok (df, srcName) =>
    match process_fire_data_with_earthkit loader df tmpPath tmpFs with
    | (.error _, tmpFs1) => ((none, none, none), dir, tmpFs1)
    | (.ok (ekData, processedDf), tmpFs1) =>
      match analyze_fire_data processedDf with
      | .error _ => ((none, none, none), dir, tmpFs1)
      | .ok _ =>
        let saved := save_fire_data processedDf dir
        let _ := srcName
        ((some processedDf, some ekData, some saved.2), saved.1, tmpFs1)

/-! ## Claim theorems -/

/-- Claim C1: the fetcher's filtering step keeps exactly the rows whose
`acq_date` cell equals today's date rendered as YYYY-MM-DD — same columns,
rows a sublist of the input (relative order preserved), membership and
multiplicity characterised by the date equality. -/
theorem fetch_filters_today_exactly (df : DataFrame) (y m d : ℕ) :
    (filterToday (fmtDate y m d) df).cols = df.cols ∧
    (filterToday (fmtDate y m d) df).rows.Sublist df.rows ∧
    (∀ r, r ∈ (filterToday (fmtDate y m d) df).rows ↔
        r ∈ df.rows ∧ getCell df.cols r "acq_date" = some (Value.str (fmtDate y m d))) ∧
    (∀ r, (filterToday (fmtDate y m d) df).rows.count r =
        if getCell df.cols r "acq_date" = some (Value.str (fmtDate y m d))
        then df.rows.count r else 0) := by
  refine ⟨rfl, List.filter_sublist _, ?_, ?_⟩
  · intro r
    constructor
    · intro hmem
      have h := List.mem_filter.mp hmem
      exact ⟨h.1, of_decide_eq_true h.2⟩
    · intro ⟨h1, h2⟩
      exact List.mem_filter.mpr ⟨h1, decide_eq_true h2⟩
  · intro r
    by_cases hr : getCell df.cols r "acq_date" = some (Value.str (fmtDate y m d))
    · rw [if_pos hr]
      exact List.count_filter (by simp [rowMatchesDate, hr])
    · rw [if_neg hr]
      apply List.count_eq_zero.mpr
      intro hmem
      exact hr (of_decide_eq_true (List.mem_filter.mp hmem).2)

/-- Claim C9: without an `frp` column the writer leaves the table untouched:
the written table is the input table, row order included. -/
theorem writer_keeps_order_without_frp (df : DataFrame) (h : "frp" ∉ df.cols) :
    savedDf df = df := by
  unfold savedDf
  rw [if_neg h]

/-- Witness for C9 on a one-row table with no `frp` column. -/
theorem writer_keeps_order_without_frp_witness :
    ("frp" ∉ (⟨["latitude"], [[Value.num 1], [Value.num 2]]⟩ : DataFrame).cols) ∧
    savedDf ⟨["latitude"], [[Value.num 1], [Value.num 2]]⟩ =
      ⟨["latitude"], [[Value.num 1], [Value.num 2]]⟩ :=
  ⟨by decide, writer_keeps_order_without_frp _ (by decide)⟩

/-- Claim C10: for every input table the rows the writer serializes are a
permutation of the input rows (no row added, dropped, or modified), and the
columns are unchanged — the writer may only reorder. -/
theorem writer_rows_are_permutation (df : DataFrame) :
    (savedDf df).rows.Perm df.rows ∧ (savedDf df).cols = df.cols := by
  unfold savedDf
  split_ifs with h
  · exact ⟨List.perm_insertionSort _ _, rfl⟩
  · exact ⟨List.Perm.refl _, rfl⟩

/-- Claim C8: any writer run leaves the output directory with exactly the
single snapshot file `fire_snapshot.csv` among files matching the
`fire_snapshot*.csv` pattern (prior matching files all deleted first); in
particular a second run in succession still leaves exactly one match. -/
theorem writer_leaves_single_snapshot (df : DataFrame) (dir : OutDir) :
    (save_fire_data df dir).1.filter (fun e => snapshotGlobMatch e.1) =
      [("fire_snapshot.csv", savedDf df)] ∧
    ∀ df2 : DataFrame,
      ((save_fire_data df2 (save_fire_data df dir).1).1.filter
        (fun e => snapshotGlobMatch e.1)).length = 1 := by
  have key : ∀ (d : OutDir) (x : DataFrame),
      (save_fire_data x d).1.filter (fun e => snapshotGlobMatch e.1) =
        [("fire_snapshot.csv", savedDf x)] := by
    intro d x
    unfold save_fire_data
    have hm : snapshotGlobMatch "fire_snapshot.csv" = true := by decide
    simp [List.filter_append, List.filter_filter, hm]
  refine ⟨key dir df, fun df2 => ?_⟩
  rw [key]
  rfl

/-- Claim C4: the loader step's temporary file is gone after the call on
every path — the temp directory is restored exactly (given the fresh name
`NamedTemporaryFile` guarantees), a loader exception still propagates, and
on success the handle and the unmodified table are returned. -/
theorem loader_temp_file_cleanup (loader : String → Except String EkData)
    (df : DataFrame) (tmpPath : String) (tmpFs : List String)
    (hfresh : tmpPath ∉ tmpFs) :
    (process_fire_data_with_earthkit loader df tmpPath tmpFs).2 = tmpFs ∧
    tmpPath ∉ (process_fire_data_with_earthkit loader df tmpPath tmpFs).2 ∧
    (∀ e, loader tmpPath = .error e →
      (process_fire_data_with_earthkit loader df tmpPath tmpFs).1 = .error e) ∧
    ∀ dta, loader tmpPath = .ok dta →
      (process_fire_data_with_earthkit loader df tmpPath tmpFs).1 = .ok (dta, df) := by
  have h2 : (process_fire_data_with_earthkit loader df tmpPath tmpFs).2 = tmpFs := by
    unfold process_fire_data_with_earthkit
    exact List.erase_cons_head tmpPath tmpFs
  refine ⟨h2, by rw [h2]; exact hfresh, ?_, ?_⟩
  · intro e he
    unfold process_fire_data_with_earthkit
    rw [he]
  · intro dta hd
    unfold process_fire_data_with_earthkit
    rw [hd]

/-- Witness for C4 with a loader that raises: the temp directory is restored
and the error propagates. -/
theorem loader_temp_file_cleanup_witness :
    ("t.csv" ∉ (["other.csv"] : List String)) ∧
    (process_fire_data_with_earthkit (fun _ => .error "boom") ⟨[], []⟩
      "t.csv" ["other.csv"]).2 = ["other.csv"] ∧
    (process_fire_data_with_earthkit (fun _ => .error "boom") ⟨[], []⟩
      "t.csv" ["other.csv"]).1 = .error "boom" := by
  have h := loader_temp_file_cleanup (fun _ => .error "boom") ⟨[], []⟩
    "t.csv" ["other.csv"] (by decide)
  exact ⟨by decide, h.1, h.2.2.1 "boom" rfl⟩

/-- When every configured source's fetch either fails or yields a table with
no rows for today, the fallback loop exhausts and raises the terminal
error. -/
theorem trySources_exhausted (todayStr : String)
    (fetch : String → Except String DataFrame) (l : List (String × String))
    (h : ∀ p ∈ l, ∀ df, fetch (buildUrl p.2) = .ok df →
      (filterToday todayStr df).rows = []) :
    trySources todayStr fetch l =
      .error "Failed to download fire data from all sources" := by
  induction l with
  | nil => rfl
  | cons p rest ih =>
    obtain ⟨sourceName, sourcePath⟩ := p
    have hrest : ∀ q ∈ rest, ∀ df, fetch (buildUrl q.2) = .ok df →
        (filterToday todayStr df).rows = [] :=
      fun q hq => h q (List.mem_cons_of_mem _ hq)
    have ihr := ih hrest
    unfold trySources
    cases hf : fetch (buildUrl sourcePath) with
    | error e => exact ihr
    | ok df =>
      have hflt : (filterToday todayStr df).rows = [] :=
        h (sourceName, sourcePath) (List.mem_cons_self _ _) df hf
      by_cases hemp : df.isEmpty
      · simp only [hemp, if_true]
        exact ihr
      · simp only [hemp, Bool.false_eq_true, if_false]
        by_cases hcol : "acq_date" ∈ df.cols
        · simp only [hcol, if_true, hflt, List.isEmpty_nil, if_true]
          exact ihr
        · simp only [hcol, if_false]
          exact ihr

/-- Claim C3: when every configured source yields no rows for today (or
fails outright), the top-level run catches the exhaustion error and returns
the null triple, and neither the output directory nor the temp directory is
changed — no output file is created or overwritten. -/
theorem main_null_when_sources_empty (todayStr tmpPath : String)
    (fetch : String → Except String DataFrame)
    (loader : String → Except String EkData) (dir : OutDir) (tmpFs : List String)
    (h : ∀ p ∈ SOURCES, ∀ df, fetch (buildUrl p.2) = .ok df →
      (filterToday todayStr df).rows = []) :
    fires_main todayStr fetch loader tmpPath dir tmpFs =
      ((none, none, none), dir, tmpFs) := by
  unfold fires_main get_latest_fire_data
  rw [trySources_exhausted todayStr fetch SOURCES h]

/-- Witness for C3: a fetch whose every response has a date column but no
rows leaves the one-file output directory untouched and yields the null
triple. -/
theorem main_null_when_sources_empty_witness :
    fires_main "2026-10-12" (fun _ => .ok ⟨["acq_date"], []⟩)
      (fun _ => .ok ⟨"ek"⟩) "t.csv" [("keep.txt", ⟨[], []⟩)] [] =
      ((none, none, none), [("keep.txt", ⟨[], []⟩)], []) := by
  apply main_null_when_sources_empty
  intro p hp df hdf
  injection hdf with h1
  rw [← h1]
  rfl

/-- Claim C5 (the code contradicts it): the analyzer does raise on a table
that merely lacks a coordinate column — with an `acq_time` column present
and `latitude` absent, `fire.get('latitude', 'N/A')` returns the string
`'N/A'` and the `:.2f` format spec raises a `ValueError` instead of
printing a placeholder. -/
theorem analyzer_raises_on_missing_latitude :
    analyze_fire_data ⟨["acq_time"], [[Value.num 112]]⟩ =
      .error "Unknown format code 'f' for object of type 'str'" := by
  rfl

/-- Counterexample to claim C6 as stated: a nonempty table without a time
column produces analyzer output containing no per-row "most recent" line at
all — the first five rows are not printed. -/
theorem analyzer_head5_branch_dead :
    analyze_fire_data ⟨["frp"], [[Value.num 1]]⟩ = .ok [Line.header, Line.total 1] ∧
    ([Line.header, Line.total 1].filter Line.isRecentFire = []) ∧
    (DataFrame.rows ⟨["frp"], [[Value.num 1]]⟩).take 5 ≠ [] := by
  refine ⟨rfl, rfl, ?_⟩
  intro h
  cases h

/-- A successfully built "most recent" line is a per-row `recentFire` line. -/
theorem recentLine_isRecentFire (cols : List String) (r : List Value) (y : Line)
    (h : recentLine cols r = .ok y) : y.isRecentFire = true := by
  unfold recentLine at h
  cases h1 : fmt2f (rowGet cols r "latitude" (Value.str "N/A")) with
  | error e => rw [h1] at h; cases h
  | ok la =>
    rw [h1] at h
    cases h2 : fmt2f (rowGet cols r "longitude" (Value.str "N/A")) with
    | error e => rw [h2] at h; cases h
    | ok lo =>
      rw [h2] at h
      injection h with hy
      rw [← hy]
      rfl

/-- Rows mapped through `recentLine` yield only `recentFire` lines. -/
theorem mapExcept_recentLine_filter (cols : List String) :
    ∀ (rows : List (List Value)) (rls : List Line),
      mapExcept (recentLine cols) rows = .ok rls →
      rls.filter Line.isRecentFire = rls := by
  intro rows
  induction rows with
  | nil =>
    intro rls h
    injection h with h1
    rw [← h1]
    rfl
  | cons r rest ih =>
    intro rls h
    unfold mapExcept at h
    cases h1 : recentLine cols r with
    | error e => rw [h1] at h; cases h
    | ok y =>
      rw [h1] at h
      cases h2 : mapExcept (recentLine cols) rest with
      | error e => rw [h2] at h; cases h
      | ok ys =>
        rw [h2] at h
        injection h with h3
        rw [← h3]
        rw [List.filter_cons_of_pos (recentLine_isRecentFire cols r y h1)]
        rw [ih ys h2]

/-- The blocks before the "most recent" one never contain a per-row
`recentFire` line. -/
theorem staticLines_no_recent (df : DataFrame) :
    (basicLines df ++ confLines df ++ coordLines df ++ dailyLines df).filter
      Line.isRecentFire = [] := by
  unfold basicLines confLines coordLines dailyLines
  split_ifs <;>
    simp [List.filter_append, List.filter_map, Line.isRecentFire, Function.comp]

/-- Amended claim C6: the "most recent" sub-analysis runs only when a time
column exists, printing the 5 rows with the largest time value (date and
time fields default to the `'N/A'` placeholder); when no time column exists
the sub-analysis prints nothing — the first-5-rows fallback is dead code. -/
theorem analyzer_recent_block_amended :
    (∀ (df : DataFrame) (ls : List Line), "acq_time" ∉ df.cols →
        analyze_fire_data df = .ok ls → ls.filter Line.isRecentFire = []) ∧
    (∀ (df : DataFrame) (ls rls : List Line), "acq_time" ∈ df.cols →
        analyze_fire_data df = .ok ls →
        mapExcept (recentLine df.cols) (df.nlargest 5 "acq_time") = .ok rls →
        ls.filter Line.isRecentFire = rls) := by
  constructor
  · intro df ls htime h
    unfold analyze_fire_data recentBlock at h
    rw [if_neg htime] at h
    injection h with h1
    rw [← h1]
    simpa using staticLines_no_recent df
  · intro df ls rls htime h hmap
    unfold analyze_fire_data recentBlock at h
    rw [if_pos htime] at h
    simp only [if_pos htime] at h
    rw [show (do
        let ls ← mapExcept (recentLine df.cols) (df.nlargest 5 "acq_time")
        pure (Line.recentHeader :: ls) : Except String (List Line)) =
      (mapExcept (recentLine df.cols) (df.nlargest 5 "acq_time")).bind
        (fun ls => .ok (Line.recentHeader :: ls)) from rfl, hmap] at h
    injection h with h1
    rw [← h1, List.filter_append, staticLines_no_recent df,
      List.filter_cons_of_neg (by simp [Line.isRecentFire])]
    rw [mapExcept_recentLine_filter df.cols _ rls hmap]
    rfl

/-- Witness for the amended C6 on a one-row table with a time column: the
only per-row printed line is the `nlargest`-selected row, with the missing
date rendered as the placeholder. -/
theorem analyzer_recent_block_amended_witness :
    ("acq_time" ∈ (⟨["acq_time", "latitude", "longitude"],
        [[Value.num 112, Value.num 1, Value.num 2]]⟩ : DataFrame).cols) ∧
    ([Line.header, Line.total 1, Line.latRange (some 1) (some 1),
      Line.lonRange (some 2) (some 2), Line.recentHeader,
      Line.recentFire (Value.str "N/A") (Value.num 112) 1 2].filter
        Line.isRecentFire =
      [Line.recentFire (Value.str "N/A") (Value.num 112) 1 2]) :=
  ⟨by decide,
    analyzer_recent_block_amended.2
      ⟨["acq_time", "latitude", "longitude"], [[Value.num 112, Value.num 1, Value.num 2]]⟩
      [Line.header, Line.total 1, Line.latRange (some 1) (some 1),
       Line.lonRange (some 2) (some 2), Line.recentHeader,
       Line.recentFire (Value.str "N/A") (Value.num 112) 1 2]
      [Line.recentFire (Value.str "N/A") (Value.num 112) 1 2]
      (by decide) rfl rfl⟩

/-- Counterexample to claim C7 as stated: two distinct configured sources
yield different URLs — the interpolated source path differs. -/
theorem fetcher_urls_differ :
    ("modis", "modis-c6.1") ∈ SOURCES ∧ ("viirs", "viirs-snpp") ∈ SOURCES ∧
    buildUrl "modis-c6.1" ≠ buildUrl "viirs-snpp" := by
  decide

/-- Amended claim C7: the three configured sources build three pairwise
distinct URLs (the source path segment is interpolated), but every URL ends
in the same constant MODIS-specific file name
`/txt/MODIS_C6_1_Global_24h.csv`, so the non-MODIS sources request a
MODIS-named file and the fallback does not reach genuinely different data
products. -/
theorem fetcher_urls_amended :
    (SOURCES.map (fun p => buildUrl p.2)).Pairwise (fun u v => u ≠ v) ∧
    (SOURCES.map (fun p => buildUrl p.2)).all
      (fun u => "/txt/MODIS_C6_1_Global_24h.csv".data.reverse.isPrefixOf
        u.data.reverse) = true := by
  constructor
  · decide
  · decide
